import Mathlib

/-!
A shallow embedding of the Wayland windowing core of this repository
(`window/src/os/wayland/connection.rs` and `window/src/os/wayland/window.rs`),
together with proofs about its pending-event coalescer, its dispatch path,
its paint retry behaviour and its cross-thread promise bridge.

Machine integers (`u32`, `i32`, `usize`) are modelled as `Nat`/`Int`; none of
the verified paths exercise overflow.  External protocol calls that touch no
modelled state (`surface.set_buffer_scale`, `window.resize` on the decoration,
`window.refresh`, `surface.commit`) are represented either as no-ops or as
counters in an effect log.  A Rust `panic!`/`unwrap` on `Err` is modelled by
the `Outcome.fatal` constructor.
-/

/-- Modelled from the spec: `crate::DEFAULT_DPI`, the crate-level default DPI
constant referenced by `window.rs` but defined outside the provided sources.
Only the ratio `dpi / DEFAULT_DPI` matters for the claims proved here (it is 1
for a freshly created window). -/
def DEFAULT_DPI : Nat := 96

/-- The subset of `smithay_client_toolkit::window::State` values that can occur
in the `states` vector of a configure event.  `PendingEvent::queue` only tests
membership of `State::Fullscreen`. -/
inductive WlState where
  | fullscreen_st
  | maximized
  | activated
  | resizing
deriving DecidableEq, Repr

/-- Model of `smithay_client_toolkit::window::Event`, the argument of
`PendingEvent::queue` (window.rs lines 110-154). -/
inductive Event where
  | Close : Event
  | Refresh : Event
  | Configure (new_size : Option (Nat × Nat)) (states : List WlState) : Event
deriving DecidableEq, Repr

/-- Model of `struct PendingEvent` (window.rs lines 99-107): the per-window coalesced
diff buffered between drains. -/
structure PendingEvent where
  close : Bool
  had_configure_event : Bool
  refresh_decorations : Bool
  configure : Option (Nat × Nat)
  dpi : Option Int
  full_screen : Option Bool
deriving DecidableEq, Repr

/-- Model of `PendingEvent::default()`: all flags false, all optional fields absent. -/
def PendingEvent.dflt : PendingEvent :=
  { close := false
    had_configure_event := false
    refresh_decorations := false
    configure := none
    dpi := none
    full_screen := none }

/-- Model of `PendingEvent::queue` (window.rs lines 110-154).  Returns the `changed`
flag together with the updated buffer (the Rust method mutates `self`). -/
def PendingEvent.queue (p : PendingEvent) (evt : Event) : Bool × PendingEvent :=
  match evt with
  | Event.Close =>
    if !p.close then
      (true, { p with close := true })
    else
      (false, p)
  | Event.Refresh =>
    if !p.refresh_decorations then
      (true, { p with refresh_decorations := true })
    else
      (false, p)
  | Event.Configure new_size states =>
    let p := { p with had_configure_event := true }
    let cp : Bool × PendingEvent :=
      match new_size with
      | some sz => (p.configure.isNone, { p with configure := some sz })
      | none => (true, p)
    let changed := cp.1
    let p := cp.2
    let full_screen := states.contains WlState.fullscreen_st
    match p.full_screen, full_screen with
    | none, false => (changed, p)
    | _, _ => (true, { p with full_screen := some full_screen })

/-- Queue a whole list of events into the buffer, collecting each call's
`changed` return value in order. -/
def queueAll (p : PendingEvent) (evts : List Event) : List Bool × PendingEvent :=
  match evts with
  | [] => ([], p)
  | e :: rest =>
    let cp := p.queue e
    let rec' := queueAll cp.2 rest
    (cp.1 :: rec'.1, rec'.2)

/-- The claim C2 reads the spec as: a second configure carrying a different
size reports a change.  This is the spec-side statement, to be compared with
`PendingEvent.queue` above (which computes `changed` from `configure.isNone`,
not from a size comparison). -/
def spec_configure_changed (p : PendingEvent) (new_size : Option (Nat × Nat)) : Bool :=
  match new_size with
  | some sz => p.configure ≠ some sz
  | none => true

/-- Model of `crate::Dimensions`: committed pixel dimensions plus dpi. -/
structure Dimensions where
  pixel_width : Nat
  pixel_height : Nat
  dpi : Nat
deriving DecidableEq, Repr

/-- The modelled part of `crate::GpuContext`: the swap-chain descriptor
geometry (`sc_desc.width`/`sc_desc.height`) and a generation counter that is
bumped each time `device.create_swap_chain` replaces `swap_chain`. -/
structure GpuContext where
  sc_width : Nat
  sc_height : Nat
  swap_chain_gen : Nat
deriving DecidableEq, Repr

/-- Effect log: counts of the application-callback invocations and external
effects performed by the dispatch/paint path.  `acquire_count` counts calls to
`swap_chain.get_current_frame`; `wgpu_count` counts invocations of
`enable_wgpu` (GPU negotiation); `refresh_count` counts `refresh_frame`s that
actually touched a live window. -/
structure CallLog where
  destroy_count : Nat
  resize_count : Nat
  created_count : Nat
  render_count : Nat
  wgpu_count : Nat
  acquire_count : Nat
  refresh_count : Nat
  resize_args : List (Dimensions × Bool)
deriving DecidableEq, Repr

/-- The all-zero effect log. -/
def CallLog.zero : CallLog :=
  { destroy_count := 0, resize_count := 0, created_count := 0, render_count := 0
    wgpu_count := 0, acquire_count := 0, refresh_count := 0, resize_args := [] }

/-- External collaborators of one drain, fixed for its duration:
the application's `can_close` answer, the compositor's
`get_surface_scale_factor`, whether GPU adapter/device negotiation succeeds,
whether the application's `created` callback returns `Ok`, whether
`create_window` succeeds, and the success of the n-th
`swap_chain.get_current_frame` call. -/
structure Env where
  can_close : Bool
  surface_scale_factor : Nat
  gpu_ok : Bool
  created_ok : Bool
  create_window_ok : Bool
  acquire_ok : Nat → Bool

/-- The modelled fields of `struct WaylandWindowInner` (window.rs lines
82-97).  `window : Bool` stands for `Option<toolkit::window::Window>` being
`Some` (`false` after `self.window.take()`); input-only fields (mouse,
modifiers, clipboard) are not needed by any claim and are omitted. -/
structure WindowInner where
  window_id : Nat
  window : Bool
  dimensions : Dimensions
  need_paint : Bool
  full_screen : Bool
  pending_event : PendingEvent
  gpu_context : Option GpuContext
deriving DecidableEq, Repr

/-- Result of a loop-thread operation that may `panic!`
(an `unwrap()`/`expect()` on a failed operation). -/
inductive Outcome (α : Type) where
  | ok (a : α) : Outcome α
  | fatal (msg : String) : Outcome α
deriving DecidableEq, Repr

/-- Map over the non-fatal result. -/
def Outcome.map {α β : Type} (f : α → β) : Outcome α → Outcome β
  | Outcome.ok a => Outcome.ok (f a)
  | Outcome.fatal m => Outcome.fatal m

/-- Extract the non-fatal result, if any. -/
def Outcome.get? {α : Type} : Outcome α → Option α
  | Outcome.ok a => some a
  | Outcome.fatal _ => none

/-- Model of `WaylandWindowInner::get_dpi_factor` (window.rs line 442):
`self.dimensions.dpi as i32 / crate::DEFAULT_DPI as i32`. -/
def get_dpi_factor (dims : Dimensions) : Nat :=
  dims.dpi / DEFAULT_DPI

/-- Model of `WaylandWindowInner::surface_to_pixels` (window.rs line 446):
`surface * self.get_dpi_factor()`. -/
def surface_to_pixels (dims : Dimensions) (surface : Nat) : Nat :=
  surface * get_dpi_factor dims

/-- Model of `WaylandWindowInner::pixels_to_surface` (window.rs line 450): pixel count
divided by the dpi factor, rounded up ("take care to round up, otherwise we
can lose a pixel").  The f64 ceiling division of the source is exact on the
integer ranges in play, so it is rendered as a `Nat` ceiling division. -/
def pixels_to_surface (dims : Dimensions) (pixels : Nat) : Nat :=
  (pixels + get_dpi_factor dims - 1) / get_dpi_factor dims

/-- Model of `WaylandWindowInner::refresh_frame` (window.rs lines 545-550):
`window.refresh()` + `surface().commit()` when the window is still live; a
pure protocol effect, recorded as a counter. -/
def refresh_frame (st : WindowInner) (log : CallLog) : CallLog :=
  if st.window then { log with refresh_count := log.refresh_count + 1 } else log

/-- Model of `WaylandWindowInner::do_paint` (window.rs lines 611-634).  With a GPU
context attached: acquire the current frame; on failure recreate the swap
chain and retry once, a second failure being the `expect` panic; on success
render and clear `need_paint`.  Without a GPU context the body is skipped.
Either way a final `refresh_frame` is issued.  The source returns
`anyhow::Result` but never an `Err`; failure surfaces only as the panic. -/
def do_paint (env : Env) (st : WindowInner) (log : CallLog) :
    Outcome (WindowInner × CallLog) :=
  match st.gpu_context with
  | none => Outcome.ok (st, refresh_frame st log)
  | some gpu =>
    let n := log.acquire_count
    let log := { log with acquire_count := log.acquire_count + 1 }
    if env.acquire_ok n then
      let log := { log with render_count := log.render_count + 1 }
      let st := { st with need_paint := false }
      Outcome.ok (st, refresh_frame st log)
    else
      let gpu := { gpu with swap_chain_gen := gpu.swap_chain_gen + 1 }
      let st := { st with gpu_context := some gpu }
      let n2 := log.acquire_count
      let log := { log with acquire_count := log.acquire_count + 1 }
      if env.acquire_ok n2 then
        let log := { log with render_count := log.render_count + 1 }
        let st := { st with need_paint := false }
        Outcome.ok (st, refresh_frame st log)
      else
        Outcome.fatal "Failed to acquire next swap chain texture!"

/-- Model of `WaylandWindowInner::enable_wgpu` (window.rs lines 552-609): the one-time
GPU-context negotiation.  On adapter/device failure it returns `Err`; on
success it builds the swap chain from the current dimensions, attaches the
context, then invokes the application's `created` callback, whose own failure
propagates via `?`. -/
def enable_wgpu (env : Env) (st : WindowInner) (log : CallLog) :
    Except String (WindowInner × CallLog) :=
  let log := { log with wgpu_count := log.wgpu_count + 1 }
  if !env.gpu_ok then
    Except.error "No suitable GPU adapters found on the system!"
  else
    let ctx : GpuContext :=
      { sc_width := st.dimensions.pixel_width
        sc_height := st.dimensions.pixel_height
        swap_chain_gen := 0 }
    let st := { st with gpu_context := some ctx }
    let log := { log with created_count := log.created_count + 1 }
    if env.created_ok then Except.ok (st, log) else Except.error "created callback failed"

/-- Model of `WindowOpsMut::invalidate` for the Wayland window (window.rs lines
881-884): set `need_paint` and paint immediately (`do_paint().unwrap()`). -/
def invalidate (env : Env) (st : WindowInner) (log : CallLog) :
    Outcome (WindowInner × CallLog) :=
  do_paint env { st with need_paint := true } log

/-- Step 1 of `dispatch_pending_event` (window.rs lines 464-467): if a close
is pending and the application's `can_close` predicate agrees, invoke the
`destroy` callback and release the platform surface (`self.window.take()`). -/
def close_step (env : Env) (pending : PendingEvent) (st : WindowInner)
    (log : CallLog) : WindowInner × CallLog :=
  if pending.close && env.can_close then
    ({ st with window := false }, { log with destroy_count := log.destroy_count + 1 })
  else
    (st, log)

/-- Step 2 of `dispatch_pending_event` (window.rs lines 469-476): apply a
pending fullscreen flag to the window state. -/
def fullscreen_step (pending : PendingEvent) (st : WindowInner) : WindowInner :=
  match pending.full_screen with
  | some fs => { st with full_screen := fs }
  | none => st

/-- Step 3 of `dispatch_pending_event` (window.rs lines 478-485): when only a
dpi change is pending, synthesize a configure event from the current surface
size so the size-recompute path runs. -/
def synth_configure_step (pending : PendingEvent) (st : WindowInner) : PendingEvent :=
  if pending.configure.isNone && pending.dpi.isSome then
    { pending with
        configure := some
          (pixels_to_surface st.dimensions st.dimensions.pixel_width,
           pixels_to_surface st.dimensions st.dimensions.pixel_height) }
  else
    pending

/-- The size-change block of the configure handling (window.rs lines
503-528): compute the new pixel dimensions from the reported surface size and
the *old* dpi factor; if they differ from the committed ones, commit them,
update the swap-chain descriptor geometry, fire the `resize` callback with
the new dimensions and the current fullscreen flag, and recreate the swap
chain.  The source interleaves the `resize` callback between the descriptor
update and the swap-chain recreation; with callback effects recorded in the
log, the merged single update below is observationally identical. -/
def resize_block (env : Env) (wh : Nat × Nat) (st : WindowInner)
    (log : CallLog) : WindowInner × CallLog :=
  let pixel_width := surface_to_pixels st.dimensions wh.1
  let pixel_height := surface_to_pixels st.dimensions wh.2
  let new_dimensions : Dimensions :=
    { pixel_width := pixel_width
      pixel_height := pixel_height
      dpi := env.surface_scale_factor * DEFAULT_DPI }
  if new_dimensions ≠ st.dimensions then
    let log' : CallLog :=
      { log with
          resize_count := log.resize_count + 1
          resize_args := log.resize_args ++ [(new_dimensions, st.full_screen)] }
    match st.gpu_context with
    | some gpu =>
      let gpu :=
        { gpu with
            sc_width := pixel_width
            sc_height := pixel_height
            swap_chain_gen := gpu.swap_chain_gen + 1 }
      ({ st with dimensions := new_dimensions, gpu_context := some gpu }, log')
    | none =>
      ({ st with dimensions := new_dimensions }, log')
  else
    (st, log)

/-- Step 4 of `dispatch_pending_event` (window.rs lines 487-534): apply a
pending configure to a live window: run the size-change block, refresh the
frame, mark paint needed and paint immediately (`do_paint().unwrap()`). -/
def configure_step (env : Env) (pending : PendingEvent) (st : WindowInner)
    (log : CallLog) : Outcome (WindowInner × CallLog) :=
  match pending.configure with
  | none => Outcome.ok (st, log)
  | some wh =>
    if st.window then
      let stlog := resize_block env wh st log
      let st := stlog.1
      let log := refresh_frame st stlog.2
      let st := { st with need_paint := true }
      do_paint env st log
    else
      Outcome.ok (st, log)

/-- Step 5 of `dispatch_pending_event` (window.rs lines 535-537): a pending
decoration refresh redraws the chrome of a live window. -/
def refresh_decorations_step (pending : PendingEvent) (st : WindowInner)
    (log : CallLog) : CallLog :=
  if pending.refresh_decorations && st.window then refresh_frame st log else log

/-- Step 6 of `dispatch_pending_event` (window.rs lines 538-542): the first
observed configure of a live window with no GPU context yet triggers the
one-time GPU negotiation (`block_on(enable_wgpu()).unwrap()`), followed by an
invalidate so the window is displayed at all. -/
def wgpu_step (env : Env) (pending : PendingEvent) (st : WindowInner)
    (log : CallLog) : Outcome (WindowInner × CallLog) :=
  if pending.had_configure_event && st.window && st.gpu_context.isNone then
    match enable_wgpu env st log with
    | Except.error e => Outcome.fatal e
    | Except.ok stlog => invalidate env stlog.1 stlog.2
  else
    Outcome.ok (st, log)

/-- The body of `WaylandWindowInner::dispatch_pending_event` (window.rs lines
464-543), operating on the snapshot `pending` taken at entry; it never reads
or writes the shared `pending_event` buffer. -/
def dispatch_body (env : Env) (pending : PendingEvent) (st : WindowInner)
    (log : CallLog) : Outcome (WindowInner × CallLog) :=
  let stlog := close_step env pending st log
  let st := fullscreen_step pending stlog.1
  let pending := synth_configure_step pending st
  match configure_step env pending st stlog.2 with
  | Outcome.fatal m => Outcome.fatal m
  | Outcome.ok stlog2 =>
    let log := refresh_decorations_step pending stlog2.1 stlog2.2
    wgpu_step env pending stlog2.1 log

/-- Model of `WaylandWindowInner::dispatch_pending_event` (window.rs lines 457-543):
under the buffer's mutex, clone the pending aggregate and reset the shared
buffer to the default, then run the body against the snapshot. -/
def dispatch_pending_event (env : Env) (st : WindowInner) (log : CallLog) :
    Outcome (WindowInner × CallLog) :=
  let pending := st.pending_event
  let st := { st with pending_event := PendingEvent.dflt }
  dispatch_body env pending st log

/-- The `WaylandWindowInner` value built by `WaylandWindow::new_window`
(window.rs lines 245-260): live window, requested pixel dimensions at the
default dpi, paint needed, not fullscreen, empty pending buffer, no GPU
context yet. -/
def new_window_inner (id width height : Nat) : WindowInner :=
  { window_id := id
    window := true
    dimensions :=
      { pixel_width := width, pixel_height := height, dpi := DEFAULT_DPI }
    need_paint := true
    full_screen := false
    pending_event := PendingEvent.dflt
    gpu_context := none }

/-- The WindowRegistry: `WaylandConnection::windows`, an id-keyed table of
window state owners (`HashMap<usize, Rc<RefCell<WaylandWindowInner>>>`),
rendered as an association list. -/
abbrev Registry := List (Nat × WindowInner)

/-- Model of `WaylandConnection::window_by_id` (connection.rs lines 141-143). -/
def window_by_id (reg : Registry) (id : Nat) : Option WindowInner :=
  (reg.find? (fun kv => kv.1 == id)).map Prod.snd

/-- In-place mutation of the registry slot for `id` (the effect of mutating
through the `Rc<RefCell<..>>` handle returned by `window_by_id`). -/
def registry_update (reg : Registry) (id : Nat) (inner : WindowInner) : Registry :=
  reg.map (fun kv => if kv.1 == id then (kv.1, inner) else kv)

/-- The pure part of `WaylandWindow::new_window` (window.rs lines 161-267):
after protocol-level surface/window creation succeeds, build the inner state,
register it under a fresh id and return the handle; `create_window` failure is
surfaced as the error of the async call.  GPU negotiation plays no part
here. -/
def new_window (env : Env) (reg : Registry) (id width height : Nat) :
    Except String (Nat × Registry) :=
  if env.create_window_ok then
    Except.ok (id, (id, new_window_inner id width height) :: reg)
  else
    Except.error "Failed to create window"

/-- Model of `run_message_loop` teardown (connection.rs line 250):
`self.windows.borrow_mut().clear()` destroys every `WindowState` when the
loop exits. -/
def run_message_loop_teardown (_reg : Registry) : Registry := []

/-- The promise/future cell of one `with_window_inner` call, plus
instrumentation: how often the promise was resolved and how often the
scheduled closure was invoked. -/
structure Bridge (R : Type) where
  future : Option (Except String R)
  resolve_count : Nat
  f_invocations : Nat

/-- The bridge state at the moment `with_window_inner` returns (connection.rs
lines 145-167): the future exists but is unresolved, and the closure has not
run; the closure is parked on the spawn queue for the loop thread. -/
def with_window_inner_call (R : Type) : Bridge R :=
  { future := none, resolve_count := 0, f_invocations := 0 }

/-- Model of `promise::Promise::result`: resolve the single-assignment cell. -/
def promise_result {R : Type} (b : Bridge R) (r : Except String R) : Bridge R :=
  { b with future := some r, resolve_count := b.resolve_count + 1 }

/-- The task spawned by `with_window_inner` (connection.rs lines 158-164), as
executed later on the loop thread: look the id up in the registry; if present,
run the closure with exclusive mutable access to that state and resolve the
promise with the closure's result; if absent, do nothing. -/
def run_scheduled_task {R : Type} (reg : Registry) (id : Nat)
    (f : WindowInner → Except String R × WindowInner) (b : Bridge R) :
    Bridge R × Registry :=
  match window_by_id reg id with
  | some inner =>
    let rr := f inner
    (promise_result { b with f_invocations := b.f_invocations + 1 } rr.1,
     registry_update reg id rr.2)
  | none => (b, reg)

/-- The `with_window_inner(id, |inner| inner.dispatch_pending_event())`
closure acting on the registry (the route by which every drain reaches a
window): look up, drain, store back.  A missing id leaves everything
untouched. -/
def dispatch_in_registry (env : Env) (reg : Registry) (id : Nat) (log : CallLog) :
    Outcome (Registry × CallLog) :=
  match window_by_id reg id with
  | some inner =>
    match dispatch_pending_event env inner log with
    | Outcome.ok sl => Outcome.ok (registry_update reg id sl.1, sl.2)
    | Outcome.fatal m => Outcome.fatal m
  | none => Outcome.ok (reg, log)

/-- A drain during which the window-event callbacks queue the events `during`
into the shared buffer: the snapshot/reset happens under the mutex before any
callback runs (window.rs lines 458-463), so every such event lands in the
already-reset buffer while the body works off the snapshot. -/
def dispatch_pending_event_during (env : Env) (st : WindowInner) (log : CallLog)
    (during : List Event) : Outcome (WindowInner × CallLog) :=
  let pending := st.pending_event
  let st := { st with pending_event := PendingEvent.dflt }
  let st := { st with pending_event := (queueAll st.pending_event during).2 }
  dispatch_body env pending st log

/-- The fresh window of `new_window id w h` right after its first configure
notification `(w, h)` (no fullscreen states) has been queued. -/
def first_configure_state (id w h : Nat) : WindowInner :=
  let st := new_window_inner id w h
  { st with pending_event :=
      (st.pending_event.queue (Event.Configure (some (w, h)) [])).2 }

/-- Re-attach a given shared-buffer value to the window-state component of a
drain result. -/
def setPending (q : PendingEvent) (sl : WindowInner × CallLog) :
    WindowInner × CallLog :=
  ({ sl.1 with pending_event := q }, sl.2)

/-- The environment of the C3 counterexample: GPU negotiation fails,
everything else succeeds. -/
def env_gpu_fail : Env :=
  { can_close := false, surface_scale_factor := 1, gpu_ok := false,
    created_ok := true, create_window_ok := true, acquire_ok := fun _ => true }

/-- The environment of the C4 scenario: the application consents to
closing. -/
def env_close_ok : Env :=
  { can_close := true, surface_scale_factor := 1, gpu_ok := true,
    created_ok := true, create_window_ok := true, acquire_ok := fun _ => true }

/-- A fresh 800×600 window with a close notification pending. -/
def st_close_pending : WindowInner :=
  { new_window_inner 1 800 600 with
      pending_event := { PendingEvent.dflt with close := true } }

/-- Environment for the C6 scenario: GPU negotiation and presentation all
succeed; the compositor reports scale factor 1. -/
def env_gpu_success : Env :=
  { can_close := false, surface_scale_factor := 1, gpu_ok := true,
    created_ok := true, create_window_ok := true, acquire_ok := fun _ => true }

/-- A GPU context at generation 0 with an 800×600 descriptor. -/
def gpu0 : GpuContext := { sc_width := 800, sc_height := 600, swap_chain_gen := 0 }

/-- A live window holding `gpu0`. -/
def st_gpu : WindowInner :=
  { new_window_inner 1 800 600 with gpu_context := some gpu0 }

/-- Environment whose frame acquisition fails on attempt 0 and succeeds on
attempt 1. -/
def env_retry : Env :=
  { can_close := false, surface_scale_factor := 1, gpu_ok := true,
    created_ok := true, create_window_ok := true, acquire_ok := fun n => n == 1 }

/-- Environment whose frame acquisition always fails. -/
def env_acquire_fail : Env :=
  { can_close := false, surface_scale_factor := 1, gpu_ok := true,
    created_ok := true, create_window_ok := true, acquire_ok := fun _ => false }

/-- C8: two configure notifications with identical size and no fullscreen
state, queued into a fresh buffer before a drain: the first merge reports a
change, the second does not. -/
theorem c8_duplicate_configure_second_unchanged
    (sz : Nat × Nat) (states1 states2 : List WlState)
    (h1 : WlState.fullscreen_st ∉ states1)
    (h2 : WlState.fullscreen_st ∉ states2) :
    (PendingEvent.dflt.queue (Event.Configure (some sz) states1)).1 = true ∧
    ((PendingEvent.dflt.queue (Event.Configure (some sz) states1)).2.queue
        (Event.Configure (some sz) states2)).1 = false := by
  constructor
  · simp [PendingEvent.queue, PendingEvent.dflt, h1]
  · simp [PendingEvent.queue, PendingEvent.dflt, h1, h2]

/-- Witness for C8 at a concrete input: size (800, 600), empty state lists. -/
theorem c8_witness :
    (PendingEvent.dflt.queue (Event.Configure (some (800, 600)) [])).1 = true ∧
    ((PendingEvent.dflt.queue (Event.Configure (some (800, 600)) [])).2.queue
        (Event.Configure (some (800, 600)) [])).1 = false :=
  c8_duplicate_configure_second_unchanged (800, 600) [] []
    (List.not_mem_nil _) (List.not_mem_nil _)

/-- Helper for C9: once `close` is buffered, queueing further close events
returns `false` and leaves the buffer unchanged. -/
theorem queue_close_of_close (p : PendingEvent) (h : p.close = true) :
    p.queue Event.Close = (false, p) := by
  simp [PendingEvent.queue, h]

/-- Helper for C9: draining a run of close events against an
already-close-buffered value yields all-false `changed` flags. -/
theorem queueAll_close_replicate (n : Nat) (p : PendingEvent) (h : p.close = true) :
    queueAll p (List.replicate n Event.Close) = (List.replicate n false, p) := by
  induction n with
  | zero => simp [queueAll]
  | succ k ih =>
    simp only [List.replicate_succ, queueAll, queue_close_of_close p h]
    simp [ih]

/-- C9: for any run of close notifications queued into a fresh buffer before a
drain, the merge reports a change exactly for the first close and for none of
the later ones. -/
theorem c9_close_idempotent_after_first (n : Nat) :
    (queueAll PendingEvent.dflt (List.replicate (n + 1) Event.Close)).1 =
      true :: List.replicate n false := by
  have hfirst : PendingEvent.dflt.queue Event.Close =
      (true, { PendingEvent.dflt with close := true }) := by
    simp [PendingEvent.queue, PendingEvent.dflt]
  simp only [List.replicate_succ, queueAll, hfirst]
  simp [queueAll_close_replicate n { PendingEvent.dflt with close := true } rfl]

/-- C2 counterexample: a second configure with a *different* size queued
before the drain returns `false` from the merge, while the spec-side predicate
says it should report a change.  (First event: size (400, 300); second event:
size (500, 400); no fullscreen states.) -/
theorem c2_counterexample :
    (((PendingEvent.dflt.queue (Event.Configure (some (400, 300)) [])).2.queue
        (Event.Configure (some (500, 400)) [])).1 = false) ∧
    spec_configure_changed
        (PendingEvent.dflt.queue (Event.Configure (some (400, 300)) [])).2
        (some (500, 400)) = true := by
  constructor
  · rfl
  · decide

/-- C2 amended: when a configure size is already buffered, a further configure
notification with no fullscreen involvement reports *no* change regardless of
whether its size differs (the `changed` flag is computed from
`configure.is_none()`), although the newest size replaces the buffered one. -/
theorem c2_amended_second_configure_not_changed
    (p : PendingEvent) (s s' : Nat × Nat) (states : List WlState)
    (hbuf : p.configure = some s)
    (hfs : p.full_screen = none)
    (hst : WlState.fullscreen_st ∉ states) :
    (p.queue (Event.Configure (some s') states)).1 = false ∧
    (p.queue (Event.Configure (some s') states)).2.configure = some s' := by
  constructor
  · simp [PendingEvent.queue, hbuf, hfs, hst]
  · simp [PendingEvent.queue, hbuf, hfs, hst]

/-- Witness for the amended C2 at a concrete input: buffer holds (400, 300),
the second configure carries (500, 400). -/
theorem c2_amended_witness :
    ({ PendingEvent.dflt with
        had_configure_event := true
        configure := some (400, 300) }.queue
      (Event.Configure (some (500, 400)) [])).1 = false ∧
    ({ PendingEvent.dflt with
        had_configure_event := true
        configure := some (400, 300) }.queue
      (Event.Configure (some (500, 400)) [])).2.configure = some (500, 400) :=
  c2_amended_second_configure_not_changed
    { PendingEvent.dflt with had_configure_event := true, configure := some (400, 300) }
    (400, 300) (500, 400) [] rfl rfl (List.not_mem_nil _)

/-- Fact: `refresh_frame` only bumps the refresh counter. -/
theorem refresh_frame_destroy (st : WindowInner) (log : CallLog) :
    (refresh_frame st log).destroy_count = log.destroy_count := by
  unfold refresh_frame; split <;> rfl

/-- Fact: `fullscreen_step` leaves the surface handle alone. -/
theorem fullscreen_step_window (p : PendingEvent) (st : WindowInner) :
    (fullscreen_step p st).window = st.window := by
  unfold fullscreen_step; split <;> rfl

/-- Fact: `fullscreen_step` leaves the shared buffer alone. -/
theorem fullscreen_step_pending (p : PendingEvent) (st : WindowInner) :
    (fullscreen_step p st).pending_event = st.pending_event := by
  unfold fullscreen_step; split <;> rfl

/-- Fact: `fullscreen_step` leaves the GPU context alone. -/
theorem fullscreen_step_gpu (p : PendingEvent) (st : WindowInner) :
    (fullscreen_step p st).gpu_context = st.gpu_context := by
  unfold fullscreen_step; split <;> rfl

/-- With `can_close` answering false, the close handling is a no-op. -/
theorem close_step_can_close_false (env : Env) (p : PendingEvent)
    (st : WindowInner) (log : CallLog) (h : env.can_close = false) :
    close_step env p st log = (st, log) := by
  unfold close_step; simp [h]

/-- Without a pending close, the close handling is a no-op. -/
theorem close_step_no_close (env : Env) (p : PendingEvent)
    (st : WindowInner) (log : CallLog) (h : p.close = false) :
    close_step env p st log = (st, log) := by
  unfold close_step; simp [h]

/-- A pending close on which `can_close` agrees releases the surface and
fires `destroy`. -/
theorem close_step_taken (env : Env) (p : PendingEvent)
    (st : WindowInner) (log : CallLog) (hc : p.close = true)
    (ha : env.can_close = true) :
    close_step env p st log =
      ({ st with window := false },
       { log with destroy_count := log.destroy_count + 1 }) := by
  unfold close_step; simp [hc, ha]

/-- The configure handling of a window whose surface is gone is a no-op. -/
theorem configure_step_no_window (env : Env) (p : PendingEvent)
    (st : WindowInner) (log : CallLog) (h : st.window = false) :
    configure_step env p st log = Outcome.ok (st, log) := by
  unfold configure_step
  cases p.configure <;> simp [h]

/-- The GPU-negotiation trigger of a window whose surface is gone is a
no-op. -/
theorem wgpu_step_no_window (env : Env) (p : PendingEvent)
    (st : WindowInner) (log : CallLog) (h : st.window = false) :
    wgpu_step env p st log = Outcome.ok (st, log) := by
  unfold wgpu_step; simp [h]

/-- The decoration refresh of a window whose surface is gone is a no-op. -/
theorem refresh_decorations_step_no_window (p : PendingEvent)
    (st : WindowInner) (log : CallLog) (h : st.window = false) :
    refresh_decorations_step p st log = log := by
  unfold refresh_decorations_step; simp [h]

/-- Whatever the paint path does, it does not touch the surface handle, the
shared buffer or the `destroy` count. -/
theorem do_paint_frame (env : Env) (st : WindowInner) (log : CallLog)
    (st' : WindowInner) (log' : CallLog)
    (h : do_paint env st log = Outcome.ok (st', log')) :
    st'.window = st.window ∧ st'.pending_event = st.pending_event ∧
      log'.destroy_count = log.destroy_count := by
  cases hg : st.gpu_context with
  | none =>
    simp only [do_paint, hg, Outcome.ok.injEq, Prod.mk.injEq] at h
    obtain ⟨h1, h2⟩ := h
    subst h1; subst h2
    exact ⟨rfl, rfl, refresh_frame_destroy _ _⟩
  | some gpu =>
    simp only [do_paint, hg] at h
    cases ha : env.acquire_ok log.acquire_count
    · cases hb : env.acquire_ok (log.acquire_count + 1)
      · simp [ha, hb] at h
      · simp only [ha, hb, Bool.false_eq_true, if_false, if_true, reduceIte,
          Outcome.ok.injEq, Prod.mk.injEq] at h
        obtain ⟨h1, h2⟩ := h
        subst h1; subst h2
        exact ⟨rfl, rfl, refresh_frame_destroy _ _⟩
    · simp only [ha, if_true, reduceIte, Outcome.ok.injEq, Prod.mk.injEq] at h
      obtain ⟨h1, h2⟩ := h
      subst h1; subst h2
      exact ⟨rfl, rfl, refresh_frame_destroy _ _⟩

/-- The size-change block does not touch the surface handle, the shared
buffer or the `destroy` count. -/
theorem resize_block_frame (env : Env) (wh : Nat × Nat) (st : WindowInner)
    (log : CallLog) :
    (resize_block env wh st log).1.window = st.window ∧
    (resize_block env wh st log).1.pending_event = st.pending_event ∧
    (resize_block env wh st log).2.destroy_count = log.destroy_count := by
  unfold resize_block
  dsimp only
  split
  · split <;> exact ⟨rfl, rfl, rfl⟩
  · exact ⟨rfl, rfl, rfl⟩

/-- Whatever the configure handling does, it does not touch the surface
handle, the shared buffer or the `destroy` count. -/
theorem configure_step_frame (env : Env) (p : PendingEvent) (st : WindowInner)
    (log : CallLog) (st' : WindowInner) (log' : CallLog)
    (h : configure_step env p st log = Outcome.ok (st', log')) :
    st'.window = st.window ∧ st'.pending_event = st.pending_event ∧
      log'.destroy_count = log.destroy_count := by
  unfold configure_step at h
  split at h
  · simp only [Outcome.ok.injEq, Prod.mk.injEq] at h
    obtain ⟨h1, h2⟩ := h
    subst h1; subst h2
    exact ⟨rfl, rfl, rfl⟩
  · split at h
    · obtain ⟨hw, hp, hd⟩ := do_paint_frame _ _ _ _ _ h
      obtain ⟨rw1, rp1, rd1⟩ := resize_block_frame env _ st log
      refine ⟨?_, ?_, ?_⟩
      · rw [hw]; exact rw1
      · rw [hp]; exact rp1
      · rw [hd, refresh_frame_destroy]; exact rd1
    · simp only [Outcome.ok.injEq, Prod.mk.injEq] at h
      obtain ⟨h1, h2⟩ := h
      subst h1; subst h2
      exact ⟨rfl, rfl, rfl⟩

/-- GPU negotiation, when it succeeds, attaches a context and fires `created`
without touching the surface handle, the shared buffer or the `destroy`
count. -/
theorem enable_wgpu_frame (env : Env) (st : WindowInner) (log : CallLog)
    (st' : WindowInner) (log' : CallLog)
    (h : enable_wgpu env st log = Except.ok (st', log')) :
    st'.window = st.window ∧ st'.pending_event = st.pending_event ∧
      log'.destroy_count = log.destroy_count := by
  cases hg : env.gpu_ok with
  | false => simp [enable_wgpu, hg] at h
  | true =>
    cases hc : env.created_ok with
    | false => simp [enable_wgpu, hg, hc] at h
    | true =>
      simp only [enable_wgpu, hg, hc, Bool.not_true, Bool.false_eq_true,
        if_false, if_true, reduceIte, Except.ok.injEq, Prod.mk.injEq] at h
      obtain ⟨h1, h2⟩ := h
      subst h1; subst h2
      exact ⟨rfl, rfl, rfl⟩

/-- The first-configure GPU trigger does not touch the surface handle, the
shared buffer or the `destroy` count. -/
theorem wgpu_step_frame (env : Env) (p : PendingEvent) (st : WindowInner)
    (log : CallLog) (st' : WindowInner) (log' : CallLog)
    (h : wgpu_step env p st log = Outcome.ok (st', log')) :
    st'.window = st.window ∧ st'.pending_event = st.pending_event ∧
      log'.destroy_count = log.destroy_count := by
  unfold wgpu_step at h
  split at h
  · split at h
    · exact absurd h (by simp)
    · rename_i stlog heq
      unfold invalidate at h
      obtain ⟨hw2, hp2, hd2⟩ := do_paint_frame _ _ _ _ _ h
      obtain ⟨hw, hp, hd⟩ := enable_wgpu_frame _ _ _ _ _ heq
      exact ⟨hw2.trans hw, hp2.trans hp, hd2.trans hd⟩
  · simp only [Outcome.ok.injEq, Prod.mk.injEq] at h
    obtain ⟨h1, h2⟩ := h
    subst h1; subst h2
    exact ⟨rfl, rfl, rfl⟩

/-- Fact: `refresh_decorations_step` only bumps the refresh counter. -/
theorem refresh_decorations_step_destroy (p : PendingEvent) (st : WindowInner)
    (log : CallLog) :
    (refresh_decorations_step p st log).destroy_count = log.destroy_count := by
  unfold refresh_decorations_step
  split
  · exact refresh_frame_destroy _ _
  · rfl

/-- The close handling never reads the shared buffer field of the state. -/
theorem close_step_pending_irrel (env : Env) (p : PendingEvent)
    (st : WindowInner) (log : CallLog) (q : PendingEvent) :
    close_step env p { st with pending_event := q } log =
      setPending q (close_step env p st log) := by
  unfold close_step setPending
  split <;> rfl

/-- The fullscreen handling never reads the shared buffer field. -/
theorem fullscreen_step_pending_irrel (p : PendingEvent) (st : WindowInner)
    (q : PendingEvent) :
    fullscreen_step p { st with pending_event := q } =
      { fullscreen_step p st with pending_event := q } := by
  unfold fullscreen_step
  cases hfs : p.full_screen <;> rfl

/-- The dpi-synthesis step never reads the shared buffer field. -/
theorem synth_configure_step_pending_irrel (p : PendingEvent)
    (st : WindowInner) (q : PendingEvent) :
    synth_configure_step p { st with pending_event := q } =
      synth_configure_step p st := rfl

/-- The size-change block never reads the shared buffer field. -/
theorem resize_block_pending_irrel (env : Env) (wh : Nat × Nat)
    (st : WindowInner) (log : CallLog) (q : PendingEvent) :
    resize_block env wh { st with pending_event := q } log =
      setPending q (resize_block env wh st log) := by
  unfold resize_block setPending
  dsimp only
  split
  · split <;> rfl
  · rfl

/-- The paint path never reads the shared buffer field. -/
theorem do_paint_pending_irrel (env : Env) (st : WindowInner) (log : CallLog)
    (q : PendingEvent) :
    do_paint env { st with pending_event := q } log =
      Outcome.map (setPending q) (do_paint env st log) := by
  unfold do_paint
  dsimp only
  split
  · rfl
  · split
    · rfl
    · split <;> rfl

/-- The configure handling never reads the shared buffer field. -/
theorem configure_step_pending_irrel (env : Env) (p : PendingEvent)
    (st : WindowInner) (log : CallLog) (q : PendingEvent) :
    configure_step env p { st with pending_event := q } log =
      Outcome.map (setPending q) (configure_step env p st log) := by
  unfold configure_step
  dsimp only
  split
  · rfl
  · rename_i wh hpc
    split
    · rw [resize_block_pending_irrel]
      dsimp only [setPending]
      exact do_paint_pending_irrel env
        { (resize_block env wh st log).1 with need_paint := true }
        (refresh_frame (resize_block env wh st log).1
          (resize_block env wh st log).2) q
    · rfl

/-- The GPU negotiation never reads the shared buffer field. -/
theorem enable_wgpu_pending_irrel (env : Env) (st : WindowInner)
    (log : CallLog) (q : PendingEvent) :
    enable_wgpu env { st with pending_event := q } log =
      (enable_wgpu env st log).map
        (fun sl => ({ sl.1 with pending_event := q }, sl.2)) := by
  unfold enable_wgpu
  cases env.gpu_ok <;> cases env.created_ok <;> rfl

/-- The first-configure GPU trigger never reads the shared buffer field. -/
theorem wgpu_step_pending_irrel (env : Env) (p : PendingEvent)
    (st : WindowInner) (log : CallLog) (q : PendingEvent) :
    wgpu_step env p { st with pending_event := q } log =
      Outcome.map (setPending q) (wgpu_step env p st log) := by
  unfold wgpu_step
  dsimp only
  split
  · rw [enable_wgpu_pending_irrel]
    cases henb : enable_wgpu env st log with
    | error e => rfl
    | ok sl =>
      dsimp only [Except.map]
      unfold invalidate
      exact do_paint_pending_irrel env { sl.1 with need_paint := true } sl.2 q
  · rfl

/-- The whole dispatch body never reads the shared buffer field of the state
it mutates: its result on a state with buffer `q` is its result on the
original state with `q` re-attached. -/
theorem dispatch_body_pending_irrel (env : Env) (pe : PendingEvent)
    (st : WindowInner) (log : CallLog) (q : PendingEvent) :
    dispatch_body env pe { st with pending_event := q } log =
      Outcome.map (setPending q) (dispatch_body env pe st log) := by
  unfold dispatch_body
  rw [close_step_pending_irrel]
  dsimp only [setPending]
  rw [fullscreen_step_pending_irrel]
  generalize fullscreen_step pe (close_step env pe st log).1 = st1
  dsimp only
  rw [synth_configure_step_pending_irrel]
  generalize synth_configure_step pe st1 = p1
  rw [configure_step_pending_irrel]
  cases hc : configure_step env p1 st1 (close_step env pe st log).2 with
  | fatal m => rfl
  | ok sl =>
    dsimp only [Outcome.map, setPending]
    rw [wgpu_step_pending_irrel]
    rfl

/-- The close handling leaves the shared buffer field alone. -/
theorem close_step_pending (env : Env) (p : PendingEvent) (st : WindowInner)
    (log : CallLog) :
    (close_step env p st log).1.pending_event = st.pending_event := by
  unfold close_step; split <;> rfl

/-- A non-fatal drain body never writes the shared buffer field: whatever is
in it when the body starts is still there when the body finishes. -/
theorem dispatch_body_pending_preserved (env : Env) (pe : PendingEvent)
    (st : WindowInner) (log : CallLog) (st' : WindowInner) (log' : CallLog)
    (h : dispatch_body env pe st log = Outcome.ok (st', log')) :
    st'.pending_event = st.pending_event := by
  unfold dispatch_body at h
  dsimp only at h
  split at h
  · simp at h
  · rename_i sl hcfg
    obtain ⟨-, hp2, -⟩ := wgpu_step_frame _ _ _ _ _ _ h
    obtain ⟨-, hp1, -⟩ := configure_step_frame _ _ _ _ _ _ hcfg
    rw [hp2, hp1, fullscreen_step_pending, close_step_pending]

/-- Composing two buffer re-attachments keeps only the outer one. -/
theorem outcome_map_setPending_absorb (q1 q2 : PendingEvent)
    (x : Outcome (WindowInner × CallLog)) :
    Outcome.map (setPending q2) (Outcome.map (setPending q1) x) =
      Outcome.map (setPending q2) x := by
  cases x <;> rfl

/-- The fullscreen handling ignores the `close` field of the snapshot. -/
theorem fullscreen_step_close_irrel (p : PendingEvent) (st : WindowInner)
    (b : Bool) :
    fullscreen_step { p with close := b } st = fullscreen_step p st := by
  unfold fullscreen_step; dsimp only

/-- The dpi-synthesis step carries the `close` field through untouched. -/
theorem synth_close_irrel (p : PendingEvent) (st : WindowInner) (b : Bool) :
    synth_configure_step { p with close := b } st =
      { synth_configure_step p st with close := b } := by
  unfold synth_configure_step; dsimp only; split <;> rfl

/-- The configure handling ignores the `close` field of the snapshot. -/
theorem configure_step_close_irrel (env : Env) (p : PendingEvent)
    (st : WindowInner) (log : CallLog) (b : Bool) :
    configure_step env { p with close := b } st log =
      configure_step env p st log := by
  unfold configure_step; dsimp only

/-- The decoration refresh ignores the `close` field of the snapshot. -/
theorem refresh_decorations_step_close_irrel (p : PendingEvent)
    (st : WindowInner) (log : CallLog) (b : Bool) :
    refresh_decorations_step { p with close := b } st log =
      refresh_decorations_step p st log := by
  unfold refresh_decorations_step; dsimp only

/-- The GPU trigger ignores the `close` field of the snapshot. -/
theorem wgpu_step_close_irrel (env : Env) (p : PendingEvent)
    (st : WindowInner) (log : CallLog) (b : Bool) :
    wgpu_step env { p with close := b } st log = wgpu_step env p st log := by
  unfold wgpu_step; dsimp only

/-- With `can_close` answering false, the `close` field of the snapshot has
no influence on the drain body at all. -/
theorem dispatch_body_close_irrel (env : Env) (pe : PendingEvent)
    (st : WindowInner) (log : CallLog) (b : Bool) (h : env.can_close = false) :
    dispatch_body env { pe with close := b } st log =
      dispatch_body env pe st log := by
  unfold dispatch_body
  rw [close_step_can_close_false env { pe with close := b } st log h,
    close_step_can_close_false env pe st log h]
  dsimp only
  rw [fullscreen_step_close_irrel]
  generalize fullscreen_step pe st = st1
  rw [synth_close_irrel]
  generalize synth_configure_step pe st1 = P
  dsimp only
  rw [configure_step_close_irrel]
  cases hc : configure_step env P st1 log with
  | fatal m => rfl
  | ok sl =>
    dsimp only
    rw [refresh_decorations_step_close_irrel, wgpu_step_close_irrel]

/-- A pending close on which `can_close` agrees: the body releases the
surface, fires `destroy` once, and the remaining steps (configure, refresh,
GPU trigger) are all skipped because the surface is gone. -/
theorem dispatch_body_close_taken (env : Env) (pe : PendingEvent)
    (st : WindowInner) (log : CallLog) (hc : pe.close = true)
    (ha : env.can_close = true) :
    dispatch_body env pe st log =
      Outcome.ok (fullscreen_step pe { st with window := false },
        { log with destroy_count := log.destroy_count + 1 }) := by
  have hw : (fullscreen_step pe { st with window := false }).window = false := by
    rw [fullscreen_step_window]
  unfold dispatch_body
  rw [close_step_taken env pe st log hc ha]
  dsimp only
  rw [configure_step_no_window _ _ _ _ hw]
  dsimp only
  rw [refresh_decorations_step_no_window _ _ _ hw, wgpu_step_no_window _ _ _ _ hw]

/-- With `can_close` answering false, a drain body never fires `destroy` and
never releases the surface. -/
theorem dispatch_body_no_destroy (env : Env) (pe : PendingEvent)
    (st : WindowInner) (log : CallLog) (st' : WindowInner) (log' : CallLog)
    (h : dispatch_body env pe st log = Outcome.ok (st', log'))
    (hcc : env.can_close = false) :
    st'.window = st.window ∧ log'.destroy_count = log.destroy_count := by
  unfold dispatch_body at h
  rw [close_step_can_close_false env pe st log hcc] at h
  dsimp only at h
  split at h
  · simp at h
  · rename_i sl hcfg
    obtain ⟨hw2, -, hd2⟩ := wgpu_step_frame _ _ _ _ _ _ h
    obtain ⟨hw1, -, hd1⟩ := configure_step_frame _ _ _ _ _ _ hcfg
    constructor
    · rw [hw2, hw1, fullscreen_step_window]
    · rw [hd2, refresh_decorations_step_destroy, hd1]

/-- Mutating the slot that `window_by_id` found leaves the entry present,
now holding the mutated state. -/
theorem window_by_id_registry_update (reg : Registry) (id : Nat)
    (x : WindowInner) (h : (window_by_id reg id).isSome = true) :
    window_by_id (registry_update reg id x) id = some x := by
  induction reg with
  | nil => simp [window_by_id] at h
  | cons kv rest ih =>
    by_cases hk : (kv.1 == id) = true
    · have h1 : (if (kv.1 == id) = true then (kv.1, x) else kv) = (kv.1, x) :=
        if_pos hk
      unfold registry_update window_by_id
      rw [List.map_cons, h1,
        show List.find? (fun kv => kv.1 == id) ((kv.1, x) :: List.map
            (fun kv => if (kv.1 == id) = true then (kv.1, x) else kv) rest) =
          some (kv.1, x) from List.find?_cons_of_pos _ hk]
      rfl
    · have h1 : (if (kv.1 == id) = true then (kv.1, x) else kv) = kv := if_neg hk
      have hh : (window_by_id rest id).isSome = true := by
        unfold window_by_id at h ⊢
        rw [show List.find? (fun kv => kv.1 == id) (kv :: rest) =
            List.find? (fun kv => kv.1 == id) rest from
          List.find?_cons_of_neg _ hk] at h
        exact h
      unfold registry_update window_by_id
      rw [List.map_cons, h1,
        show List.find? (fun kv => kv.1 == id) (kv :: List.map
            (fun kv => if (kv.1 == id) = true then (kv.1, x) else kv) rest) =
          List.find? (fun kv => kv.1 == id) (List.map
            (fun kv => if (kv.1 == id) = true then (kv.1, x) else kv) rest) from
          List.find?_cons_of_neg _ hk]
      exact ih hh

/-- C5: draining a buffer with a pending close.  If the application's
`can_close` predicate agrees, the drain succeeds, fires `destroy` exactly
once and releases the platform surface (the window is Destroyed); the
remaining dispatch steps are skipped for the dead surface.  If `can_close`
refuses, the drain is identical to one with no close pending at all, fires no
`destroy`, and keeps the surface (the window stays Mapped). -/
theorem c5_close_drain (env : Env) (st : WindowInner) (log : CallLog)
    (hclose : st.pending_event.close = true) :
    (env.can_close = true →
      dispatch_pending_event env st log =
        Outcome.ok
          (fullscreen_step st.pending_event
            { st with pending_event := PendingEvent.dflt, window := false },
           { log with destroy_count := log.destroy_count + 1 }) ∧
      (fullscreen_step st.pending_event
        { st with pending_event := PendingEvent.dflt, window := false }).window
          = false) ∧
    (env.can_close = false →
      dispatch_pending_event env st log =
        dispatch_pending_event env
          { st with pending_event :=
              { st.pending_event with close := false } } log ∧
      ∀ st' log', dispatch_pending_event env st log = Outcome.ok (st', log') →
        log'.destroy_count = log.destroy_count ∧ st'.window = st.window) := by
  constructor
  · intro ha
    constructor
    · exact dispatch_body_close_taken env st.pending_event
        { st with pending_event := PendingEvent.dflt } log hclose ha
    · rw [fullscreen_step_window]
  · intro hcc
    constructor
    · exact (dispatch_body_close_irrel env st.pending_event
        { st with pending_event := PendingEvent.dflt } log false hcc).symm
    · intro st' log' h
      have hnd := dispatch_body_no_destroy env st.pending_event
        { st with pending_event := PendingEvent.dflt } log st' log' h hcc
      exact ⟨hnd.2, hnd.1⟩

/-- Witness for C5 at a concrete input: a fresh 800×600 window with a close
pending, drained once with `can_close` true and once with `can_close`
false. -/
theorem c5_witness :
    (dispatch_pending_event
        { can_close := true, surface_scale_factor := 1, gpu_ok := true,
          created_ok := true, create_window_ok := true,
          acquire_ok := fun _ => true }
        { new_window_inner 1 800 600 with
            pending_event := { PendingEvent.dflt with close := true } }
        CallLog.zero =
      Outcome.ok
        (fullscreen_step { PendingEvent.dflt with close := true }
          { new_window_inner 1 800 600 with
              pending_event := PendingEvent.dflt, window := false },
         { CallLog.zero with destroy_count := 1 })) ∧
    (dispatch_pending_event
        { can_close := false, surface_scale_factor := 1, gpu_ok := true,
          created_ok := true, create_window_ok := true,
          acquire_ok := fun _ => true }
        { new_window_inner 1 800 600 with
            pending_event := { PendingEvent.dflt with close := true } }
        CallLog.zero =
      dispatch_pending_event
        { can_close := false, surface_scale_factor := 1, gpu_ok := true,
          created_ok := true, create_window_ok := true,
          acquire_ok := fun _ => true }
        { new_window_inner 1 800 600 with pending_event := PendingEvent.dflt }
        CallLog.zero) := by
  constructor
  · exact ((c5_close_drain _ _ _ rfl).1 rfl).1
  · exact ((c5_close_drain _ _ _ rfl).2 rfl).1

/-- C10: every drain first snapshots the aggregator and resets the shared
buffer before any callback runs.  Consequently (a) the drain's effects and
resulting window state (up to the buffer field) are those of the snapshot
alone, independent of anything queued while its callbacks run, and (b) every
notification queued during the drain is waiting in the buffer afterwards,
exactly as if queued into a fresh buffer — preserved for a later drain,
neither lost nor applied now. -/
theorem c10_snapshot_reset_before_callbacks (env : Env) (st : WindowInner)
    (log : CallLog) (during : List Event) :
    Outcome.map (setPending PendingEvent.dflt)
        (dispatch_pending_event_during env st log during) =
      Outcome.map (setPending PendingEvent.dflt)
        (dispatch_pending_event env st log) ∧
    ∀ st' log',
      dispatch_pending_event_during env st log during = Outcome.ok (st', log') →
      st'.pending_event = (queueAll PendingEvent.dflt during).2 := by
  constructor
  · have key := dispatch_body_pending_irrel env st.pending_event
      { st with pending_event := PendingEvent.dflt } log
      ((queueAll PendingEvent.dflt during).2)
    exact (congrArg (Outcome.map (setPending PendingEvent.dflt)) key).trans
      (outcome_map_setPending_absorb _ _ _)
  · intro st' log' h
    exact dispatch_body_pending_preserved env st.pending_event
      { st with pending_event := (queueAll PendingEvent.dflt during).2 }
      log st' log' h

/-- C1: `with_window_inner` returns an unresolved future immediately (the
closure has not run and nothing is resolved at return time); when the
scheduled task later runs on the loop thread, a live id means the closure
runs exactly once with exclusive mutable access to the registered state and
the future is resolved exactly once with the closure's own result, success or
failure; a dead id means the closure never runs and the future stays
unresolved. -/
theorem c1_with_window_inner (R : Type) (reg : Registry) (id : Nat)
    (f : WindowInner → Except String R × WindowInner) :
    ((with_window_inner_call R).future = none ∧
     (with_window_inner_call R).f_invocations = 0 ∧
     (with_window_inner_call R).resolve_count = 0) ∧
    (∀ inner, window_by_id reg id = some inner →
      (run_scheduled_task reg id f (with_window_inner_call R)).1.future
          = some (f inner).1 ∧
      (run_scheduled_task reg id f (with_window_inner_call R)).1.resolve_count
          = 1 ∧
      (run_scheduled_task reg id f (with_window_inner_call R)).1.f_invocations
          = 1 ∧
      (run_scheduled_task reg id f (with_window_inner_call R)).2
          = registry_update reg id (f inner).2) ∧
    (window_by_id reg id = none →
      run_scheduled_task reg id f (with_window_inner_call R)
          = (with_window_inner_call R, reg)) := by
  refine ⟨⟨rfl, rfl, rfl⟩, ?_, ?_⟩
  · intro inner hfind
    unfold run_scheduled_task
    rw [hfind]
    exact ⟨rfl, rfl, rfl, rfl⟩
  · intro hnone
    unfold run_scheduled_task
    rw [hnone]

/-- Witness for C1 at a concrete input: a registry holding window 1, a
closure returning the pixel width; scheduling against id 1 resolves with
`Ok 800` after exactly one invocation, scheduling against the dead id 2
leaves the future unresolved and the closure never runs. -/
theorem c1_witness :
    ((run_scheduled_task [(1, new_window_inner 1 800 600)] 1
        (fun st => (Except.ok st.dimensions.pixel_width, st))
        (with_window_inner_call Nat)).1.future = some (Except.ok 800) ∧
     (run_scheduled_task [(1, new_window_inner 1 800 600)] 1
        (fun st => (Except.ok st.dimensions.pixel_width, st))
        (with_window_inner_call Nat)).1.resolve_count = 1 ∧
     (run_scheduled_task [(1, new_window_inner 1 800 600)] 1
        (fun st => (Except.ok st.dimensions.pixel_width, st))
        (with_window_inner_call Nat)).1.f_invocations = 1) ∧
    run_scheduled_task [(1, new_window_inner 1 800 600)] 2
        (fun st => (Except.ok st.dimensions.pixel_width, st))
        (with_window_inner_call Nat)
      = (with_window_inner_call Nat, [(1, new_window_inner 1 800 600)]) := by
  constructor
  · have h := (c1_with_window_inner Nat [(1, new_window_inner 1 800 600)] 1
      (fun st => (Except.ok st.dimensions.pixel_width, st))).2.1
      (new_window_inner 1 800 600) rfl
    exact ⟨h.1, h.2.1, h.2.2.1⟩
  · exact (c1_with_window_inner Nat [(1, new_window_inner 1 800 600)] 2
      (fun st => (Except.ok st.dimensions.pixel_width, st))).2.2 rfl

/-- C3 counterexample: with GPU negotiation failing, the asynchronous
`new_window` call has already returned success — the window-creation caller
receives `Ok`, not an error — and the failure instead becomes a loop-thread
panic inside the drain of the first configure
(`block_on(self.enable_wgpu()).unwrap()`). -/
theorem c3_counterexample :
    new_window env_gpu_fail [] 1 800 600 =
      Except.ok (1, [(1, new_window_inner 1 800 600)]) ∧
    dispatch_pending_event env_gpu_fail (first_configure_state 1 800 600)
        CallLog.zero =
      Outcome.fatal "No suitable GPU adapters found on the system!" :=
  ⟨rfl, rfl⟩

/-- The dpi-synthesis step does not change the first-configure latch. -/
theorem synth_configure_step_had (p : PendingEvent) (st : WindowInner) :
    (synth_configure_step p st).had_configure_event = p.had_configure_event := by
  unfold synth_configure_step; split <;> rfl

/-- Painting without a GPU context only refreshes the frame. -/
theorem do_paint_gpu_none (env : Env) (st : WindowInner) (log : CallLog)
    (hg : st.gpu_context = none) :
    do_paint env st log = Outcome.ok (st, refresh_frame st log) := by
  unfold do_paint; rw [hg]

/-- The size-change block of a GPU-less window touches neither the GPU slot
nor the surface handle. -/
theorem resize_block_gpu_none (env : Env) (wh : Nat × Nat) (st : WindowInner)
    (log : CallLog) (hg : st.gpu_context = none) :
    (resize_block env wh st log).1.gpu_context = none ∧
    (resize_block env wh st log).1.window = st.window := by
  unfold resize_block
  dsimp only
  split
  · rw [hg]
    exact ⟨rfl, rfl⟩
  · exact ⟨hg, rfl⟩

/-- The configure handling of a GPU-less window never panics and leaves the
GPU slot empty and the surface handle unchanged. -/
theorem configure_step_gpu_none (env : Env) (p : PendingEvent)
    (st : WindowInner) (log : CallLog) (hg : st.gpu_context = none) :
    ∃ st' log', configure_step env p st log = Outcome.ok (st', log') ∧
      st'.window = st.window ∧ st'.gpu_context = none := by
  unfold configure_step
  cases hpc : p.configure with
  | none => exact ⟨st, log, rfl, rfl, hg⟩
  | some wh =>
    dsimp only
    cases hw : st.window
    · simp only [Bool.false_eq_true, if_false, reduceIte]
      exact ⟨st, log, rfl, hw, hg⟩
    · simp only [if_true, reduceIte]
      obtain ⟨hg1, hw1⟩ := resize_block_gpu_none env wh st log hg
      have hdp := do_paint_gpu_none env
        { (resize_block env wh st log).1 with need_paint := true }
        (refresh_frame (resize_block env wh st log).1
          (resize_block env wh st log).2) hg1
      exact ⟨_, _, hdp, hw1.trans hw, hg1⟩

/-- C3 amended: a GPU-negotiation failure at the first observed configure of
a live, GPU-less window is fatal as a loop-thread panic inside
`dispatch_pending_event` (the negotiation result is `unwrap`ped there); it is
never surfaced as an error result to the asynchronous `new_window` caller,
whose own result does not depend on GPU negotiation at all. -/
theorem c3_amended_gpu_failure_panics_dispatch (env : Env) (st : WindowInner)
    (log : CallLog) (hgpu : env.gpu_ok = false)
    (hw : st.window = true) (hg : st.gpu_context = none)
    (hc : st.pending_event.close = false)
    (hh : st.pending_event.had_configure_event = true) :
    dispatch_pending_event env st log =
      Outcome.fatal "No suitable GPU adapters found on the system!" ∧
    ∀ reg id width height,
      new_window env reg id width height =
        new_window { env with gpu_ok := true } reg id width height := by
  constructor
  · show dispatch_body env st.pending_event
      { st with pending_event := PendingEvent.dflt } log = _
    unfold dispatch_body
    rw [close_step_no_close env _ _ _ hc]
    dsimp only
    have hw1 : (fullscreen_step st.pending_event
        { st with pending_event := PendingEvent.dflt }).window = true := by
      rw [fullscreen_step_window]; exact hw
    have hg1 : (fullscreen_step st.pending_event
        { st with pending_event := PendingEvent.dflt }).gpu_context = none := by
      rw [fullscreen_step_gpu]; exact hg
    obtain ⟨st2, log2, hcfg, hw2, hg2⟩ := configure_step_gpu_none env
      (synth_configure_step st.pending_event
        (fullscreen_step st.pending_event
          { st with pending_event := PendingEvent.dflt }))
      (fullscreen_step st.pending_event
        { st with pending_event := PendingEvent.dflt })
      log hg1
    rw [hcfg]
    dsimp only
    unfold wgpu_step
    rw [hw1] at hw2
    simp only [synth_configure_step_had, hh, hw2, hg2, Option.isNone_none,
      Bool.and_self, Bool.and_true, Bool.true_and, if_true, reduceIte]
    unfold enable_wgpu
    rw [hgpu]
    rfl
  · intro reg id width height
    unfold new_window
    rfl

/-- Witness for the amended C3 at a concrete input: a fresh 800×600 window
with its first configure pending, drained under a failing GPU provider. -/
theorem c3_amended_witness :
    dispatch_pending_event env_gpu_fail (first_configure_state 1 800 600)
        CallLog.zero =
      Outcome.fatal "No suitable GPU adapters found on the system!" ∧
    ∀ reg id width height,
      new_window env_gpu_fail reg id width height =
        new_window { env_gpu_fail with gpu_ok := true } reg id width height :=
  c3_amended_gpu_failure_panics_dispatch env_gpu_fail
    (first_configure_state 1 800 600) CallLog.zero rfl rfl rfl rfl rfl

/-- C4 counterexample: window 1's close sequence completes (`can_close` is
true, `destroy` fires, the platform surface is released), yet window 1 is
NOT removed from the WindowRegistry — the drained entry is still present,
now holding the surface-less state. -/
theorem c4_counterexample :
    dispatch_in_registry env_close_ok [(1, st_close_pending)] 1 CallLog.zero =
      Outcome.ok
        ([(1, { new_window_inner 1 800 600 with window := false })],
         { CallLog.zero with destroy_count := 1 }) ∧
    (window_by_id [(1, { new_window_inner 1 800 600 with window := false })]
        1).isSome = true :=
  ⟨rfl, rfl⟩

/-- C4 amended: when the close sequence completes, the destroy callback fires
and the platform surface is released, but the WindowState is not removed from
the WindowRegistry at that point: the entry remains in the registry, and
entries are removed only when the Connection tears down (`run_message_loop`
clears the whole table on exit). -/
theorem c4_amended_close_leaves_registry_entry (env : Env) (reg : Registry)
    (id : Nat) (log : CallLog) (inner : WindowInner)
    (hfind : window_by_id reg id = some inner)
    (hclose : inner.pending_event.close = true)
    (hcc : env.can_close = true) :
    ∃ st' log',
      dispatch_in_registry env reg id log =
        Outcome.ok (registry_update reg id st', log') ∧
      window_by_id (registry_update reg id st') id = some st' ∧
      st'.window = false ∧
      log'.destroy_count = log.destroy_count + 1 ∧
      run_message_loop_teardown (registry_update reg id st') = [] := by
  have hd : dispatch_pending_event env inner log =
      Outcome.ok
        (fullscreen_step inner.pending_event
          { inner with pending_event := PendingEvent.dflt, window := false },
         { log with destroy_count := log.destroy_count + 1 }) :=
    dispatch_body_close_taken env inner.pending_event
      { inner with pending_event := PendingEvent.dflt } log hclose hcc
  refine ⟨fullscreen_step inner.pending_event
      { inner with pending_event := PendingEvent.dflt, window := false },
    { log with destroy_count := log.destroy_count + 1 }, ?_, ?_, ?_, rfl, rfl⟩
  · unfold dispatch_in_registry
    rw [hfind]
    dsimp only
    rw [hd]
  · exact window_by_id_registry_update reg id _ (by rw [hfind]; rfl)
  · rw [fullscreen_step_window]

/-- Witness for the amended C4 at a concrete input: registry holding window 1
with a close pending, `can_close` answering true. -/
theorem c4_amended_witness :
    ∃ st' log',
      dispatch_in_registry env_close_ok [(1, st_close_pending)] 1 CallLog.zero =
        Outcome.ok (registry_update [(1, st_close_pending)] 1 st', log') ∧
      window_by_id (registry_update [(1, st_close_pending)] 1 st') 1 = some st' ∧
      st'.window = false ∧
      log'.destroy_count = CallLog.zero.destroy_count + 1 ∧
      run_message_loop_teardown (registry_update [(1, st_close_pending)] 1 st')
        = [] :=
  c4_amended_close_leaves_registry_entry env_close_ok [(1, st_close_pending)]
    1 CallLog.zero st_close_pending rfl rfl rfl

/-- C6: a fresh 800×600 window receives one configure of (800, 600), not
fullscreen.  The merge reports a change (so a drain is scheduled), and the
drain recomputes dimensions equal to the committed ones: GPU negotiation runs
exactly once, `created` fires exactly once, `resize` does not fire, and
exactly one invalidate-triggered repaint (`render`) occurs. -/
theorem c6_unchanged_configure_drain :
    (PendingEvent.dflt.queue (Event.Configure (some (800, 600)) [])).1 = true ∧
    dispatch_pending_event env_gpu_success (first_configure_state 1 800 600)
        CallLog.zero =
      Outcome.ok
        ({ new_window_inner 1 800 600 with
             need_paint := false
             gpu_context :=
               some { sc_width := 800, sc_height := 600, swap_chain_gen := 0 } },
         { CallLog.zero with
             created_count := 1, render_count := 1, wgpu_count := 1,
             acquire_count := 1, refresh_count := 3 }) ∧
    ({ CallLog.zero with
         created_count := 1, render_count := 1, wgpu_count := 1,
         acquire_count := 1, refresh_count := 3 } : CallLog).wgpu_count = 1 ∧
    ({ CallLog.zero with
         created_count := 1, render_count := 1, wgpu_count := 1,
         acquire_count := 1, refresh_count := 3 } : CallLog).created_count = 1 ∧
    ({ CallLog.zero with
         created_count := 1, render_count := 1, wgpu_count := 1,
         acquire_count := 1, refresh_count := 3 } : CallLog).resize_count = 0 ∧
    ({ CallLog.zero with
         created_count := 1, render_count := 1, wgpu_count := 1,
         acquire_count := 1, refresh_count := 3 } : CallLog).render_count = 1 :=
  ⟨rfl, rfl, rfl, rfl, rfl, rfl⟩

/-- C7: in the paint path, a failed frame acquisition causes exactly one
swap-chain recreation and exactly one retry of the acquisition; a first
success renders with no recreation, a success on the retry renders after one
recreation, and a second consecutive failure is the fatal
`expect` panic.  (These three cases are exhaustive: no path attempts the
acquisition more than twice.) -/
theorem c7_paint_retry_once (env : Env) (st : WindowInner) (log : CallLog)
    (gpu : GpuContext) (hg : st.gpu_context = some gpu) :
    (env.acquire_ok log.acquire_count = true →
      do_paint env st log =
        Outcome.ok
          ({ st with need_paint := false },
           refresh_frame { st with need_paint := false }
             { log with
                 render_count := log.render_count + 1
                 acquire_count := log.acquire_count + 1 })) ∧
    (env.acquire_ok log.acquire_count = false →
      env.acquire_ok (log.acquire_count + 1) = true →
      do_paint env st log =
        Outcome.ok
          ({ st with
               need_paint := false
               gpu_context :=
                 some { gpu with swap_chain_gen := gpu.swap_chain_gen + 1 } },
           refresh_frame
             { st with
                 need_paint := false
                 gpu_context :=
                   some { gpu with swap_chain_gen := gpu.swap_chain_gen + 1 } }
             { log with
                 render_count := log.render_count + 1
                 acquire_count := log.acquire_count + 1 + 1 })) ∧
    (env.acquire_ok log.acquire_count = false →
      env.acquire_ok (log.acquire_count + 1) = false →
      do_paint env st log =
        Outcome.fatal "Failed to acquire next swap chain texture!") := by
  refine ⟨?_, ?_, ?_⟩
  · intro ha
    unfold do_paint
    rw [hg]
    dsimp only
    rw [ha]
    rfl
  · intro ha hb
    unfold do_paint
    rw [hg]
    dsimp only
    rw [ha, hb]
    rfl
  · intro ha hb
    unfold do_paint
    rw [hg]
    dsimp only
    rw [ha, hb]
    rfl

/-- Witness for C7 at concrete inputs: a first failure followed by a success
renders after exactly one swap-chain recreation and two acquisitions; two
consecutive failures are fatal. -/
theorem c7_witness :
    do_paint env_retry st_gpu CallLog.zero =
      Outcome.ok
        ({ st_gpu with
             need_paint := false
             gpu_context :=
               some { gpu0 with swap_chain_gen := gpu0.swap_chain_gen + 1 } },
         refresh_frame
           { st_gpu with
               need_paint := false
               gpu_context :=
                 some { gpu0 with swap_chain_gen := gpu0.swap_chain_gen + 1 } }
           { CallLog.zero with
               render_count := CallLog.zero.render_count + 1
               acquire_count := CallLog.zero.acquire_count + 1 + 1 }) ∧
    do_paint env_acquire_fail st_gpu CallLog.zero =
      Outcome.fatal "Failed to acquire next swap chain texture!" :=
  ⟨(c7_paint_retry_once env_retry st_gpu CallLog.zero gpu0 rfl).2.1 rfl rfl,
   (c7_paint_retry_once env_acquire_fail st_gpu CallLog.zero gpu0 rfl).2.2
     rfl rfl⟩

/-- Witness for C10 at a concrete input: the C6 drain with a close
notification arriving while the drain's callbacks run.  The drain's effects
equal those of the plain drain, and afterwards the buffer holds exactly the
close queued into a fresh buffer — preserved, not applied. -/
theorem c10_witness :
    Outcome.map (setPending PendingEvent.dflt)
        (dispatch_pending_event_during env_gpu_success
          (first_configure_state 1 800 600) CallLog.zero [Event.Close]) =
      Outcome.map (setPending PendingEvent.dflt)
        (dispatch_pending_event env_gpu_success
          (first_configure_state 1 800 600) CallLog.zero) ∧
    ({ new_window_inner 1 800 600 with
         need_paint := false
         pending_event := { PendingEvent.dflt with close := true }
         gpu_context :=
           some { sc_width := 800, sc_height := 600, swap_chain_gen := 0 } }
        : WindowInner).pending_event
      = (queueAll PendingEvent.dflt [Event.Close]).2 := by
  have h := c10_snapshot_reset_before_callbacks env_gpu_success
    (first_configure_state 1 800 600) CallLog.zero [Event.Close]
  exact ⟨h.1, h.2 _ _ rfl⟩
